import Mathlib

/-!
Shallow embedding of the DocuThinker document-summarization app core:
the client-side text-extraction pipeline (frontend UploadModal), the
server-side `/upload` fallback route handler (backend index.js), and the
Redis cache gateway (backend redis/redisClient.js).

Conventions of the embedding:
- JavaScript strings are modelled as Lean `String`; `s.slice(0, n)` is
  `jsSlice s n` (a prefix of `n` characters); `s.length` is `String.length`.
- JavaScript truthiness on optional string fields: `undefined` is `none`,
  and the only falsy string is the empty string (`truthy` below).
- The remote Redis store is a state value threaded explicitly; every
  client command may fail (connection failure is the `failing` flag,
  wrong-type errors arise as in Redis), returning `Except`.
- `JSON.stringify` / `JSON.parse` are external library functions; they are
  taken as function parameters where the source calls them.
-/

/-- A JSON value, the type of data cached by the gateway helpers. -/
inductive Json where
  | null
  | bool (b : Bool)
  | num (n : Int)
  | str (s : String)
  | arr (elems : List Json)
  | obj (fields : List (String × Json))

/-- JavaScript `s.slice(0, n)`: the prefix of `s` of length at most `n`. -/
def jsSlice (s : String) (n : Nat) : String :=
  String.mk (s.data.take n)

/-- JavaScript truthiness of an optional string field: `undefined` and the
empty string are falsy, every other string is truthy. -/
def truthy : Option String → Bool
  | none => false
  | some s => !(s == "")

/-! ### Text Extractor (frontend/src/components/UploadModal.js, extractTextFromPdf) -/

/-- The text layer of one PDF page: the `str` fields of its text items,
in item order. -/
abbrev PdfPage := List String

/-- Embeds `extractTextFromPdf`: iterate pages in order from 1 to
`pdf.numPages`, join each page's text items with single spaces, append a
newline per page, and accumulate (`extractedText += items.join(" ") + "\n"`).
The page list is the document's pages in increasing page order. -/
def extractTextFromPdf (pages : List PdfPage) : String :=
  pages.foldl (fun acc items => acc ++ (String.intercalate " " items ++ "\n")) ""

/-- The specification's form of the extractor output: page-ordered
fragments, one newline after each page, space-joined items within a page. -/
def pdfSpecText (pages : List PdfPage) : String :=
  String.join (pages.map (fun items => String.intercalate " " items ++ "\n"))

/-! ### Upload Endpoint fallback (backend index.js, app.post("/upload")) -/

/-- A multer in-memory uploaded file (`req.file`): original name, declared
mimetype, byte size, and the raw buffer (unread by the fallback handler). -/
structure ReqFile where
  originalname : String
  mimetype : String
  size : Nat
  buffer : List Nat

/-- The parts of the request the fallback `/upload` handler reads:
the optional multipart file and the JSON body fields. -/
structure UploadReq where
  file : Option ReqFile
  title : Option String
  text : Option String
  userId : Option String

/-- The response sent by the fallback handler: either `res.json({...})`
with status 200, or `res.status(s).json({error})`. -/
inductive UploadResp where
  | ok (status : Nat) (summary : String) (originalText : String)
      (title : Option String) (userId : Option String)
  | err (status : Nat) (error : String)
deriving DecidableEq

/-- The truncation marker appended by the fallback summary when the text
exceeds 200 characters (the literal in the source). -/
def truncationMarker : String := "â€¦"

/-- The fake summary for a multipart file in fallback mode:
`Fallback summary for "<name>". File type: <mimetype>, size: <size> bytes.` -/
def fallbackFileSummary (f : ReqFile) : String :=
  "Fallback summary for \"" ++ f.originalname ++ "\". File type: "
    ++ f.mimetype ++ ", size: " ++ toString f.size ++ " bytes."

/-- The 400 error body when neither a file nor JSON text/title is provided. -/
def noFileOrTextMsg : String :=
  "No file or text provided in request. Send multipart/form-data (file) or JSON \x7btitle,text\x7d."

/-- Embeds the fallback branch of `app.post("/upload")` (the path taken when
`controllers.uploadDocument` is not a function): a multipart file, if present,
is answered with a placeholder summary (after checking it declares a
mimetype); else a JSON body with truthy `text` and `title` is answered with
the first-200-characters summary; else 400. -/
def uploadFallback (req : UploadReq) : UploadResp :=
  match req.file with
  | some f =>
      if f.mimetype == "" then .err 400 "Uploaded file missing mimetype"
      else .ok 200 (fallbackFileSummary f) "" (some f.originalname) none
  | none =>
      if truthy req.text && truthy req.title then
        let text := req.text.getD ""
        let snippet := jsSlice text 200
        let summary := snippet ++ (if text.length > 200 then truncationMarker else "")
        .ok 200 summary text req.title req.userId
      else
        .err 400 noFileOrTextMsg

/-! ### Upload Coordinator (frontend/src/components/UploadModal.js, handleUpload) -/

/-- The mimetype string dispatching to the PDF extraction backend. -/
def pdfMime : String := "application/pdf"

/-- The mimetype string dispatching to the DOCX extraction backend. -/
def docxMime : String :=
  "application/vnd.openxmlformats-officedocument.wordprocessingml.document"

/-- A client-side selected file: its declared `type` plus the data each
extraction backend would read from it (the PDF text layer per page, and the
raw DOCX body text). -/
structure ClientFile where
  type : String
  pdfPages : List PdfPage
  docxRawText : String

/-- What the coordinator's submit attempt ends in: the validation failure
message, the unsupported-format error, or a POST of the payload. -/
inductive SubmitOutcome where
  | validationError (msg : String)
  | unsupportedFormat (msg : String)
  | posted (title : String) (text : String) (userId : Option String)
deriving DecidableEq

/-- An observation of one `handleUpload` run: its outcome together with how
many times each extraction backend ran and how many POSTs were issued. -/
structure SubmitTrace where
  outcome : SubmitOutcome
  pdfExtractions : Nat
  docxExtractions : Nat
  networkRequests : Nat
deriving DecidableEq

/-- The error message set by the coordinator's precondition check. -/
def validationMsg : String := "Please select a file and provide a title."

/-- Embeds `handleUpload`: the guard `if (!file || !title)` fails fast with
the validation message; then the file type selects the PDF or DOCX backend
(anything else throws "Unsupported file format" before any POST); on
successful extraction one POST is issued whose payload carries the title,
the extracted text, and the stored userId when truthy. -/
def handleUpload (file : Option ClientFile) (title : String)
    (storedUserId : Option String) : SubmitTrace :=
  match file with
  | none => ⟨.validationError validationMsg, 0, 0, 0⟩
  | some f =>
      if title == "" then ⟨.validationError validationMsg, 0, 0, 0⟩
      else if f.type == pdfMime then
        ⟨.posted title (extractTextFromPdf f.pdfPages)
            (if truthy storedUserId then storedUserId else none), 1, 0, 1⟩
      else if f.type == docxMime then
        ⟨.posted title f.docxRawText
            (if truthy storedUserId then storedUserId else none), 0, 1, 1⟩
      else ⟨.unsupportedFormat "Unsupported file format", 0, 0, 0⟩

/-- Embeds the UnifiedUploadModal variant's `extractText` (the second,
OAuth/Drive upload modal): the same PDF and DOCX dispatch as the primary
modal, but any other declared type falls through to `return ""` — there is
no throw for unsupported formats in this variant. -/
def unifiedExtractText (f : ClientFile) : String :=
  if f.type == pdfMime then extractTextFromPdf f.pdfPages
  else if f.type == docxMime then f.docxRawText
  else ""

/-- Embeds the UnifiedUploadModal variant's `handleUpload`: the same
`if (!file || !title)` guard (message "Select file & title"), then one POST
is always issued with whatever `extractText` returned — including the empty
string for an unsupported type — and the stored userId is attached
unconditionally (even when absent). The trace counts an extraction backend
run only when the type dispatches to it. -/
def unifiedHandleUpload (file : Option ClientFile) (title : String)
    (storedUserId : Option String) : SubmitTrace :=
  match file with
  | none => ⟨.validationError "Select file & title", 0, 0, 0⟩
  | some f =>
      if title == "" then ⟨.validationError "Select file & title", 0, 0, 0⟩
      else
        ⟨.posted title (unifiedExtractText f) storedUserId,
          if f.type == pdfMime then 1 else 0,
          if f.type == docxMime then 1 else 0,
          1⟩

/-! ### Cache Gateway (backend/redis/redisClient.js) over a Redis store model -/

/-- A Redis value: a plain string (from SET) or a list (from LPUSH). -/
inductive RVal where
  | str (s : String)
  | list (l : List String)
deriving DecidableEq

/-- One stored key's state: its value and its expiry instant, if a TTL was
applied (`none` means no expiry, as for a bare LPUSH). -/
structure Entry where
  val : RVal
  expiresAt : Option Nat
deriving DecidableEq

/-- Key lookup in the store's memory; the head of the association list
shadows older entries for the same key. -/
def lookupMem : List (String × Entry) → String → Option Entry
  | [], _ => none
  | (k, e) :: rest, key => if k = key then some e else lookupMem rest key

/-- The remote Redis store: its keyed memory plus a flag modelling a store
outage under which every command raises a connection error. -/
structure Store where
  mem : List (String × Entry)
  failing : Bool
deriving DecidableEq

/-- Key lookup on a store. -/
def Store.lookup (s : Store) (k : String) : Option Entry :=
  lookupMem s.mem k

/-- Whether an entry is still live at instant `now` (expiry is exclusive:
an entry whose expiresAt is at or before `now` behaves as absent). -/
def entryLive (now : Nat) (e : Entry) : Bool :=
  match e.expiresAt with
  | none => true
  | some t => now < t

/-- Lookup that hides expired entries, as Redis commands observe keys. -/
def Store.liveLookup (s : Store) (now : Nat) (k : String) : Option Entry :=
  match s.lookup k with
  | none => none
  | some e => if entryLive now e then some e else none

/-- Bind `k` to `e`, shadowing any previous binding. -/
def Store.setEntry (s : Store) (k : String) (e : Entry) : Store :=
  ⟨(k, e) :: s.mem, s.failing⟩

/-- Remove every binding of `k`. -/
def Store.removeKey (s : Store) (k : String) : Store :=
  ⟨s.mem.filter (fun p => !(p.1 == k)), s.failing⟩

/-- Redis GET: nil for an absent or expired key, the string value otherwise;
a wrong-type error on a list key; a connection error on a failing store. -/
def redisGet (s : Store) (now : Nat) (k : String) : Except String (Option String) :=
  if s.failing then .error "Redis connection error" else
  match s.liveLookup now k with
  | none => .ok none
  | some e =>
      match e.val with
      | .str v => .ok (some v)
      | .list _ => .error "WRONGTYPE Operation against a key holding the wrong kind of value"

/-- Redis SET with EX: bind the key to the string with expiry `now + ttl`. -/
def redisSet (s : Store) (now : Nat) (k v : String) (ttl : Nat) : Except String Store :=
  if s.failing then .error "Redis connection error"
  else .ok (s.setEntry k ⟨.str v, some (now + ttl)⟩)

/-- Redis LPUSH: prepend to the list at the key, creating a fresh unexpiring
list when the key is absent or expired; wrong-type error on a string key. -/
def redisLPush (s : Store) (now : Nat) (k v : String) : Except String Store :=
  if s.failing then .error "Redis connection error" else
  match s.liveLookup now k with
  | none => .ok (s.setEntry k ⟨.list [v], none⟩)
  | some e =>
      match e.val with
      | .list l => .ok (s.setEntry k ⟨.list (v :: l), e.expiresAt⟩)
      | .str _ => .error "WRONGTYPE Operation against a key holding the wrong kind of value"

/-- Redis EXPIRE: set the expiry of a live key to `now + ttl`; a no-op on an
absent or expired key. -/
def redisExpire (s : Store) (now : Nat) (k : String) (ttl : Nat) : Except String Store :=
  if s.failing then .error "Redis connection error" else
  match s.liveLookup now k with
  | none => .ok s
  | some e => .ok (s.setEntry k ⟨e.val, some (now + ttl)⟩)

/-- Redis DEL: unconditional removal; deleting an absent key succeeds. -/
def redisDel (s : Store) (k : String) : Except String Store :=
  if s.failing then .error "Redis connection error"
  else .ok (s.removeKey k)

/-- Redis LRANGE key 0 -1: the whole list at a key, empty for an absent or
expired key; wrong-type error on a string key. -/
def redisLRange (s : Store) (now : Nat) (k : String) : Except String (List String) :=
  if s.failing then .error "Redis connection error" else
  match s.liveLookup now k with
  | none => .ok []
  | some e =>
      match e.val with
      | .list l => .ok l
      | .str _ => .error "WRONGTYPE Operation against a key holding the wrong kind of value"

/-- The key used by `cacheUserSession` (source default TTL: 3600 s). -/
def sessionKey (userId : String) : String := "user:session:" ++ userId

/-- The key used by `cacheDocumentMetadata` (source default TTL: 3600 s). -/
def metadataKey (docId : String) : String := "document:metadata:" ++ docId

/-- The key used by `cacheQueryResults` (source default TTL: 600 s). -/
def queryKey (qk : String) : String := "query:results:" ++ qk

/-- The key used by `cacheRecentlyViewedDocument` (source default TTL: 3600 s). -/
def recentKey (userId : String) : String := "user:recently_viewed:" ++ userId

/-- Embeds `cacheUserSession`: SET the JSON-serialized session under the
session key with the given TTL; any store error is caught and only logged,
leaving the caller's view of the store unchanged. `stringify` stands for the
external `JSON.stringify`. -/
def cacheUserSession (stringify : Json → String) (st : Store) (now : Nat)
    (userId : String) (sessionData : Json) (ttl : Nat) : Store :=
  match redisSet st now (sessionKey userId) (stringify sessionData) ttl with
  | .ok s => s
  | .error _ => st

/-- Embeds `cacheDocumentMetadata`: SET the JSON-serialized metadata under
the metadata key with the given TTL; errors are caught and only logged. -/
def cacheDocumentMetadata (stringify : Json → String) (st : Store) (now : Nat)
    (docId : String) (metadata : Json) (ttl : Nat) : Store :=
  match redisSet st now (metadataKey docId) (stringify metadata) ttl with
  | .ok s => s
  | .error _ => st

/-- Embeds `cacheQueryResults`: SET the JSON-serialized results under the
query key with the given TTL; errors are caught and only logged. -/
def cacheQueryResults (stringify : Json → String) (st : Store) (now : Nat)
    (qk : String) (results : Json) (ttl : Nat) : Store :=
  match redisSet st now (queryKey qk) (stringify results) ttl with
  | .ok s => s
  | .error _ => st

/-- Embeds `cacheRecentlyViewedDocument`: LPUSH the docId onto the per-user
recently-viewed list, then EXPIRE the whole key with the given TTL; errors
are caught and only logged (an error between the two commands keeps the
LPUSH effect, as on a real server). -/
def cacheRecentlyViewedDocument (st : Store) (now : Nat)
    (userId docId : String) (ttl : Nat) : Store :=
  match redisLPush st now (recentKey userId) docId with
  | .error _ => st
  | .ok st1 =>
      match redisExpire st1 now (recentKey userId) ttl with
      | .error _ => st1
      | .ok st2 => st2

/-- Embeds `invalidateCache`: DEL the key; errors are caught and only
logged. -/
def invalidateCache (st : Store) (key : String) : Store :=
  match redisDel st key with
  | .ok s => s
  | .error _ => st

/-- Embeds `fetchFromCache`: GET the key and JSON-parse a truthy result;
an absent (or expired) key, an empty-string value, a parse failure, or any
store error all yield `none` — the whole body sits in a try/catch whose
catch logs and returns null. `parse` stands for the external `JSON.parse`,
which may fail. -/
def fetchFromCache (parse : String → Except String Json) (st : Store)
    (now : Nat) (key : String) : Option Json :=
  match redisGet st now key with
  | .error _ => none
  | .ok none => none
  | .ok (some data) =>
      if data == "" then none
      else
        match parse data with
        | .error _ => none
        | .ok v => some v

/-- Iterated appends to the recently-viewed list, in call order, all with
the source's default TTL of 3600 s. -/
def appendAll (st : Store) (now : Nat) (u : String) (ds : List String) : Store :=
  ds.foldl (fun s d => cacheRecentlyViewedDocument s now u d 3600) st

/-- The length of the list stored at a key (0 when absent or not a list). -/
def storedListLength (st : Store) (k : String) : Nat :=
  match st.lookup k with
  | some ⟨.list l, _⟩ => l.length
  | _ => 0

/-- A fresh store with nothing cached and the connection healthy. -/
def emptyStore : Store := ⟨[], false⟩

/-! ### Helper lemmas on strings, folds, and the store -/

theorem jsSlice_of_length_le (s : String) (n : Nat) (h : s.length ≤ n) :
    jsSlice s n = s := by
  cases s with
  | mk data =>
    simp only [jsSlice, String.length_mk] at *
    exact congrArg String.mk (List.take_of_length_le h)

theorem string_append_empty (s : String) : s ++ "" = s := by
  cases s with
  | mk data =>
    apply String.ext
    simp [String.data_append]

theorem foldl_append_eq_join (f : α → String) (l : List α) :
    ∀ acc : String, l.foldl (fun a x => a ++ f x) acc = acc ++ String.join (l.map f) := by
  induction l with
  | nil => intro acc; apply String.ext; simp
  | cons x xs ih =>
    intro acc
    rw [List.foldl_cons, ih]
    apply String.ext
    simp [String.data_append]

theorem lookup_setEntry_self (s : Store) (k : String) (e : Entry) :
    (s.setEntry k e).lookup k = some e := by
  simp [Store.setEntry, Store.lookup, lookupMem]

theorem setEntry_failing (s : Store) (k : String) (e : Entry) :
    (s.setEntry k e).failing = s.failing := rfl

theorem redisLPush_fresh (st : Store) (now : Nat) (k v : String)
    (hf : st.failing = false) (h0 : st.lookup k = none) :
    redisLPush st now k v = .ok (st.setEntry k ⟨.list [v], none⟩) := by
  simp [redisLPush, Store.liveLookup, hf, h0]

theorem redisLPush_live (st : Store) (now : Nat) (k v : String)
    (l : List String) (x : Option Nat)
    (hf : st.failing = false) (h : st.lookup k = some ⟨.list l, x⟩)
    (hl : entryLive now ⟨.list l, x⟩ = true) :
    redisLPush st now k v = .ok (st.setEntry k ⟨.list (v :: l), x⟩) := by
  simp [redisLPush, Store.liveLookup, hf, h, hl]

theorem redisExpire_live (st : Store) (now : Nat) (k : String) (ttl : Nat)
    (e : Entry) (hf : st.failing = false) (h : st.lookup k = some e)
    (hl : entryLive now e = true) :
    redisExpire st now k ttl = .ok (st.setEntry k ⟨e.val, some (now + ttl)⟩) := by
  simp [redisExpire, Store.liveLookup, hf, h, hl]

theorem cacheRecent_fresh_lookup (st : Store) (now : Nat) (u d : String) (ttl : Nat)
    (hf : st.failing = false) (h0 : st.lookup (recentKey u) = none) :
    (cacheRecentlyViewedDocument st now u d ttl).lookup (recentKey u)
      = some ⟨.list [d], some (now + ttl)⟩
    ∧ (cacheRecentlyViewedDocument st now u d ttl).failing = false := by
  have h1 := redisLPush_fresh st now (recentKey u) d hf h0
  have h2 := redisExpire_live (st.setEntry (recentKey u) ⟨.list [d], none⟩) now
    (recentKey u) ttl ⟨.list [d], none⟩ hf
    (lookup_setEntry_self st (recentKey u) ⟨.list [d], none⟩) (by simp [entryLive])
  unfold cacheRecentlyViewedDocument
  rw [h1]
  simp only [h2]
  exact ⟨lookup_setEntry_self _ _ _, hf⟩

theorem cacheRecent_cons_lookup (st : Store) (now : Nat) (u d : String) (ttl : Nat)
    (l : List String) (t : Nat)
    (hf : st.failing = false) (h : st.lookup (recentKey u) = some ⟨.list l, some t⟩)
    (hlt : now < t) :
    (cacheRecentlyViewedDocument st now u d ttl).lookup (recentKey u)
      = some ⟨.list (d :: l), some (now + ttl)⟩
    ∧ (cacheRecentlyViewedDocument st now u d ttl).failing = false := by
  have hl : entryLive now ⟨.list l, some t⟩ = true := by simp [entryLive, hlt]
  have h1 := redisLPush_live st now (recentKey u) d l (some t) hf h hl
  have h2 := redisExpire_live (st.setEntry (recentKey u) ⟨.list (d :: l), some t⟩) now
    (recentKey u) ttl ⟨.list (d :: l), some t⟩ hf
    (lookup_setEntry_self st (recentKey u) ⟨.list (d :: l), some t⟩)
    (by simp [entryLive, hlt])
  unfold cacheRecentlyViewedDocument
  rw [h1]
  simp only [h2]
  exact ⟨lookup_setEntry_self _ _ _, hf⟩

theorem appendAll_lookup (u : String) (now : Nat) (ds : List String) :
    ∀ (st : Store) (l : List String),
      st.failing = false →
      st.lookup (recentKey u) = some ⟨.list l, some (now + 3600)⟩ →
      (appendAll st now u ds).lookup (recentKey u)
          = some ⟨.list (ds.reverse ++ l), some (now + 3600)⟩
      ∧ (appendAll st now u ds).failing = false := by
  induction ds with
  | nil =>
    intro st l hf h
    exact ⟨by simpa [appendAll] using h, by simpa [appendAll] using hf⟩
  | cons d rest ih =>
    intro st l hf h
    have step := cacheRecent_cons_lookup st now u d 3600 l (now + 3600) hf h
      (Nat.lt_add_of_pos_right (by omega))
    have htail := ih (cacheRecentlyViewedDocument st now u d 3600) (d :: l)
      step.2 step.1
    constructor
    · have := htail.1
      simpa [appendAll, List.foldl_cons, List.append_assoc] using this
    · simpa [appendAll, List.foldl_cons] using htail.2

/-! ### Claim theorems -/

/-- C2: For every PDF with its pages given in increasing page order,
extraction produces exactly the concatenation, in page order, of each page's
text items joined by single spaces with a newline appended after each page;
a 0-page document yields the empty string, not an error. -/
theorem extractTextFromPdf_spec :
    (∀ pages : List PdfPage, extractTextFromPdf pages = pdfSpecText pages)
    ∧ extractTextFromPdf [] = "" := by
  constructor
  · intro pages
    unfold extractTextFromPdf pdfSpecText
    rw [foldl_append_eq_join]
    apply String.ext
    simp [String.data_append]
  · rfl

/-- C1: In fallback mode, a JSON body with non-empty title and non-empty
text is answered 200 with the full text echoed as originalText, the title
echoed, and a summary equal to the 200-character prefix of the text plus
the truncation marker exactly when the text is longer than 200 characters
(so text of length at most 200 is echoed verbatim as the summary, and text
of length 250 yields the 200-character prefix plus the marker). -/
theorem uploadFallback_json_ok (title text : String) (u : Option String)
    (ht : title ≠ "") (hx : text ≠ "") :
    uploadFallback ⟨none, some title, some text, u⟩ =
      .ok 200 (jsSlice text 200 ++ (if text.length > 200 then truncationMarker else ""))
        text (some title) u
    ∧ (text.length ≤ 200 →
        jsSlice text 200 ++ (if text.length > 200 then truncationMarker else "") = text)
    ∧ (text.length = 250 →
        jsSlice text 200 ++ (if text.length > 200 then truncationMarker else "")
          = jsSlice text 200 ++ truncationMarker) := by
  refine ⟨by simp [uploadFallback, truthy, ht, hx], ?_, ?_⟩
  · intro h
    rw [if_neg (by omega), string_append_empty, jsSlice_of_length_le _ _ h]
  · intro h
    rw [if_pos (by omega)]

theorem uploadFallback_json_ok_witness :
    uploadFallback ⟨none, some "T", some "hello world", none⟩ =
      .ok 200 "hello world" "hello world" (some "T") none := by
  have h := (uploadFallback_json_ok "T" "hello world" none (by decide) (by decide)).1
  rw [h]; decide

/-- C10: In fallback mode, a JSON body whose title is non-empty but whose
text is the empty string is answered 400 with the no-file-or-text client
error, because presence is tested by truthiness and the empty string is
falsy. -/
theorem uploadFallback_emptyText (title : String) (u : Option String)
    (ht : title ≠ "") :
    uploadFallback ⟨none, some title, some "", u⟩ = .err 400 noFileOrTextMsg := by
  simp [uploadFallback, truthy]

theorem uploadFallback_emptyText_witness :
    uploadFallback ⟨none, some "T", some "", none⟩ = .err 400 noFileOrTextMsg :=
  uploadFallback_emptyText "T" none (by decide)

/-- C8: In fallback mode, a multipart file part declaring a media type is
answered 200 with the placeholder summary describing the file's name,
declared media type, and byte size, and an empty originalText; the response
is independent of the file's buffer, so no server-side extraction of the
content happens. -/
theorem uploadFallback_multipart (f g : ReqFile) (t x u : Option String)
    (hm : f.mimetype ≠ "") (hn : g.originalname = f.originalname)
    (hmt : g.mimetype = f.mimetype) (hs : g.size = f.size) :
    uploadFallback ⟨some f, t, x, u⟩ =
      .ok 200 (fallbackFileSummary f) "" (some f.originalname) none
    ∧ uploadFallback ⟨some g, t, x, u⟩ = uploadFallback ⟨some f, t, x, u⟩ := by
  constructor
  · simp [uploadFallback, hm]
  · simp [uploadFallback, fallbackFileSummary, hm, hn, hmt, hs]

theorem uploadFallback_multipart_witness :
    uploadFallback ⟨some ⟨"a.pdf", "application/pdf", 3, [1, 2, 3]⟩, none, none, none⟩ =
      .ok 200 (fallbackFileSummary ⟨"a.pdf", "application/pdf", 3, [1, 2, 3]⟩)
        "" (some "a.pdf") none
    ∧ uploadFallback ⟨some ⟨"a.pdf", "application/pdf", 3, [9, 9, 9]⟩, none, none, none⟩ =
        uploadFallback ⟨some ⟨"a.pdf", "application/pdf", 3, [1, 2, 3]⟩, none, none, none⟩ :=
  uploadFallback_multipart ⟨"a.pdf", "application/pdf", 3, [1, 2, 3]⟩
    ⟨"a.pdf", "application/pdf", 3, [9, 9, 9]⟩ none none none (by decide) rfl rfl rfl

/-- C3 counterexample: the claim fails on the UnifiedUploadModal variant —
for a submitted file of declared type "text/plain" (neither PDF nor DOCX),
that handler does not fail with the unsupported-format error: extractText
silently returns the empty string and one POST is issued (networkRequests
is 1, not 0). -/
theorem unifiedUpload_unsupported_posts_cex :
    (unifiedHandleUpload (some ⟨"text/plain", [], ""⟩) "T" none).networkRequests = 1
    ∧ (unifiedHandleUpload (some ⟨"text/plain", [], ""⟩) "T" none).outcome
        = .posted "T" "" none
    ∧ ¬ (unifiedHandleUpload (some ⟨"text/plain", [], ""⟩) "T" none
          = ⟨.unsupportedFormat "Unsupported file format", 0, 0, 0⟩) := by
  refine ⟨rfl, rfl, ?_⟩
  decide

/-- C3 amended: an unsupported declared media type never runs an extraction
backend, but the two upload modals diverge beyond that — the drag-drop
UploadModal coordinator fails with "Unsupported file format" and issues no
network request, while the UnifiedUploadModal variant silently extracts the
empty string and still issues exactly one POST carrying empty text. -/
theorem upload_unsupported_amended (f : ClientFile) (title : String)
    (uid : Option String) (ht : title ≠ "")
    (hp : f.type ≠ pdfMime) (hd : f.type ≠ docxMime) :
    handleUpload (some f) title uid =
      ⟨.unsupportedFormat "Unsupported file format", 0, 0, 0⟩
    ∧ unifiedHandleUpload (some f) title uid =
      ⟨.posted title "" uid, 0, 0, 1⟩ := by
  constructor
  · simp [handleUpload, ht, hp, hd]
  · simp [unifiedHandleUpload, unifiedExtractText, ht, hp, hd]

theorem upload_unsupported_amended_witness :
    handleUpload (some ⟨"text/plain", [], ""⟩) "T" none =
      ⟨.unsupportedFormat "Unsupported file format", 0, 0, 0⟩
    ∧ unifiedHandleUpload (some ⟨"text/plain", [], ""⟩) "T" none =
      ⟨.posted "T" "" none, 0, 0, 1⟩ :=
  upload_unsupported_amended ⟨"text/plain", [], ""⟩ "T" none
    (by decide) (by decide) (by decide)

/-- C4: A submit with the file absent or the title empty (or both) fails
immediately with the validation error, runs no extraction backend, and
issues no network request. -/
theorem handleUpload_validation (file : Option ClientFile) (title : String)
    (uid : Option String) (h : file = none ∨ title = "") :
    handleUpload file title uid = ⟨.validationError validationMsg, 0, 0, 0⟩ := by
  rcases h with h | h
  · subst h; rfl
  · cases file with
    | none => rfl
    | some f => simp [handleUpload, h]

theorem handleUpload_validation_witness :
    handleUpload (some ⟨"application/pdf", [], ""⟩) "" none =
      ⟨.validationError validationMsg, 0, 0, 0⟩ :=
  handleUpload_validation (some ⟨"application/pdf", [], ""⟩) "" none (Or.inr rfl)

/-- C5: Two successive recently-viewed appends for the same user, the second
while the first entry is unexpired, leave the single per-user key holding
the list [d2, d1] (most recent first, read back whole by LRANGE), and each
append re-applies the TTL to the entire list (the expiry after either call
is that call's instant plus the TTL). -/
theorem cacheRecentlyViewed_order (st : Store) (now1 now2 : Nat) (u d1 d2 : String)
    (hf : st.failing = false) (h0 : st.lookup (recentKey u) = none)
    (ht : now2 < now1 + 3600) :
    (cacheRecentlyViewedDocument st now1 u d1 3600).lookup (recentKey u)
      = some ⟨.list [d1], some (now1 + 3600)⟩
    ∧ (cacheRecentlyViewedDocument (cacheRecentlyViewedDocument st now1 u d1 3600)
        now2 u d2 3600).lookup (recentKey u)
      = some ⟨.list [d2, d1], some (now2 + 3600)⟩
    ∧ redisLRange (cacheRecentlyViewedDocument (cacheRecentlyViewedDocument st now1 u d1 3600)
        now2 u d2 3600) now2 (recentKey u)
      = .ok [d2, d1] := by
  have h1 := cacheRecent_fresh_lookup st now1 u d1 3600 hf h0
  have h2 := cacheRecent_cons_lookup (cacheRecentlyViewedDocument st now1 u d1 3600)
    now2 u d2 3600 [d1] (now1 + 3600) h1.2 h1.1 ht
  refine ⟨h1.1, h2.1, ?_⟩
  simp [redisLRange, Store.liveLookup, h2.1, h2.2, entryLive]

theorem cacheRecentlyViewed_order_witness :
    (cacheRecentlyViewedDocument (cacheRecentlyViewedDocument emptyStore 0 "u1" "d1" 3600)
        5 "u1" "d2" 3600).lookup (recentKey "u1")
      = some ⟨.list ["d2", "d1"], some (5 + 3600)⟩ :=
  (cacheRecentlyViewed_order emptyStore 0 5 "u1" "d1" "d2" rfl rfl (by decide)).2.1

/-- C9 counterexample: the recently-viewed list is not bounded — for every
candidate bound B there is a sequence of appends (B + 1 of them) after which
the stored list holds more than B elements, since the source does LPUSH +
EXPIRE with no trim. -/
theorem recentlyViewed_bounded_cex :
    ¬ ∃ B : Nat, ∀ ds : List String,
        storedListLength (appendAll emptyStore 0 "u1" ds) (recentKey "u1") ≤ B := by
  rintro ⟨B, hB⟩
  have h1 := cacheRecent_fresh_lookup emptyStore 0 "u1" "d" 3600 rfl rfl
  have h2 := appendAll_lookup "u1" 0 (List.replicate B "d")
    (cacheRecentlyViewedDocument emptyStore 0 "u1" "d" 3600) ["d"] h1.2 h1.1
  have hlen : storedListLength (appendAll emptyStore 0 "u1" (List.replicate (B + 1) "d"))
      (recentKey "u1") = B + 1 := by
    rw [List.replicate_succ]
    have := h2.1
    simp only [appendAll, List.foldl_cons] at *
    simp [storedListLength, this]
  have := hB (List.replicate (B + 1) "d")
  omega

/-- C9 amended: the per-user recently-viewed entry is an order-preserving,
most-recent-first list that is NOT bounded: after appending d, then the
elements of ds in order, starting from a store where the key is absent, the
key holds exactly the appended ids reversed (newest first), so its length
equals the number of appends; no fixed bound is enforced. -/
theorem recentlyViewed_append_exact (st : Store) (now : Nat) (u d : String)
    (ds : List String) (hf : st.failing = false)
    (h0 : st.lookup (recentKey u) = none) :
    (appendAll st now u (d :: ds)).lookup (recentKey u)
      = some ⟨.list (ds.reverse ++ [d]), some (now + 3600)⟩
    ∧ storedListLength (appendAll st now u (d :: ds)) (recentKey u) = ds.length + 1 := by
  have h1 := cacheRecent_fresh_lookup st now u d 3600 hf h0
  have h2 := appendAll_lookup u now ds (cacheRecentlyViewedDocument st now u d 3600)
    [d] h1.2 h1.1
  constructor
  · have := h2.1
    simpa [appendAll, List.foldl_cons] using this
  · have := h2.1
    simp only [appendAll, List.foldl_cons] at *
    simp [storedListLength, this]

theorem recentlyViewed_append_exact_witness :
    storedListLength (appendAll emptyStore 0 "u1" ("d1" :: ["d2", "d3"]))
      (recentKey "u1") = 3 := by
  have h := (recentlyViewed_append_exact emptyStore 0 "u1" "d1" ["d2", "d3"] rfl rfl).2
  simpa using h

/-- C6: fetchFromCache is total (it never throws): it returns none on a
failing store, on a key never written, on a key whose entry has expired,
and when the stored string fails to JSON-parse (the failure is only logged);
this holds for every behavior of the external parse function. -/
theorem fetchFromCache_absent (parse : String → Except String Json) (st : Store)
    (now : Nat) (key : String) :
    (st.failing = true → fetchFromCache parse st now key = none)
    ∧ (st.lookup key = none → fetchFromCache parse st now key = none)
    ∧ (∀ e, st.lookup key = some e → entryLive now e = false →
        fetchFromCache parse st now key = none)
    ∧ (∀ s msg, redisGet st now key = .ok (some s) → parse s = .error msg →
        fetchFromCache parse st now key = none) := by
  refine ⟨?_, ?_, ?_, ?_⟩
  · intro h
    simp [fetchFromCache, redisGet, h]
  · intro h
    by_cases hb : st.failing
    · simp [fetchFromCache, redisGet, hb]
    · simp [fetchFromCache, redisGet, Store.liveLookup, h, hb]
  · intro e he hl
    by_cases hb : st.failing
    · simp [fetchFromCache, redisGet, hb]
    · simp [fetchFromCache, redisGet, Store.liveLookup, he, hl, hb]
  · intro s msg hg hp
    simp [fetchFromCache, hg, hp]

theorem fetchFromCache_absent_witness :
    fetchFromCache (fun _ => Except.error "Unexpected token") emptyStore 0
      (sessionKey "u1") = none :=
  (fetchFromCache_absent (fun _ => Except.error "Unexpected token") emptyStore 0
    (sessionKey "u1")).2.1 rfl

/-- C7: With the cache store failing, every write-side gateway helper
(session, document metadata, query results, recently viewed, invalidation)
absorbs the error — nothing is thrown to the caller, the failure is only
logged, and the store state the caller sees is unchanged, so the operation
that triggered the write proceeds unaffected. -/
theorem cacheWrites_absorb_failure (stringify : Json → String) (st : Store)
    (now ttl : Nat) (uid did qk key docId : String) (v : Json)
    (hf : st.failing = true) :
    cacheUserSession stringify st now uid v ttl = st
    ∧ cacheDocumentMetadata stringify st now did v ttl = st
    ∧ cacheQueryResults stringify st now qk v ttl = st
    ∧ cacheRecentlyViewedDocument st now uid docId ttl = st
    ∧ invalidateCache st key = st := by
  refine ⟨?_, ?_, ?_, ?_, ?_⟩ <;>
    simp [cacheUserSession, cacheDocumentMetadata, cacheQueryResults,
      cacheRecentlyViewedDocument, invalidateCache, redisSet, redisLPush,
      redisDel, hf]

theorem cacheWrites_absorb_failure_witness :
    cacheUserSession (fun _ => "") ⟨[], true⟩ 0 "u1" Json.null 3600 = ⟨[], true⟩ :=
  (cacheWrites_absorb_failure (fun _ => "") ⟨[], true⟩ 0 3600 "u1" "doc1" "q1"
    "k1" "d1" Json.null rfl).1
